import Mathlib

/-!
Verification of the spotifyimport pipeline (src/bin/spotifyimport/main.rs)
against its natural-language specification.

Rust strings are modelled as lists of characters, fallible operations as
Option/Except values, and the remote HTTP endpoints as oracles supplied to
the pure worker/collector functions that embed the corresponding Rust code.
-/

namespace Spotifyimport

/-- Character-list model of a Rust string. -/
abbrev Str := List Char

/-- Model of Rust str.strip_suffix: some (s without sfx) when s ends with sfx,
none otherwise. -/
def rustStripSuffix (s sfx : Str) : Option Str :=
  if sfx.isSuffixOf s then some (s.take (s.length - sfx.length)) else none

/-- The ALBUM_TRIM_SUFFIXES constant of main.rs, in source order. -/
def ALBUM_TRIM_SUFFIXES : List Str :=
  [" - EP".toList,
   " - Single".toList,
   " (Bonus Track Version)".toList,
   " (Original Motion Picture Soundtrack)".toList,
   " (Special Edition)".toList,
   " (Deluxe Edition)".toList,
   " (Deluxe Version)".toList,
   " (Deluxe)".toList,
   " (Deluxe Edition with Videos)".toList,
   " (Extended Version)".toList]

/-- The album-trimming loop of search_query in main.rs:
for suffix in ALBUM_TRIM_SUFFIXES, album = album.strip_suffix(suffix).unwrap_or(album). -/
def trimAlbum (album : Str) : Str :=
  ALBUM_TRIM_SUFFIXES.foldl (fun a sfx => (rustStripSuffix a sfx).getD a) album

/-- search_query of main.rs: pushes "track:{} ", "artist:{} ", "album:{} "
for each non-empty field, with the album first passed through the trimming
loop. -/
def search_query (track artist album : Str) : Str :=
  let buf : Str := []
  let buf := if track.isEmpty then buf else buf ++ ("track:".toList ++ track ++ [' '])
  let buf := if artist.isEmpty then buf else buf ++ ("artist:".toList ++ artist ++ [' '])
  let album := trimAlbum album
  let buf := if album.isEmpty then buf else buf ++ ("album:".toList ++ album ++ [' '])
  buf

/-- Modelled from the spec's words, for comparison with trimAlbum: strip only
the first suffix matched in list order, once. -/
def specTrimFirstMatch (album : Str) : Str :=
  match ALBUM_TRIM_SUFFIXES.find? (fun sfx => sfx.isSuffixOf album) with
  | some sfx => album.take (album.length - sfx.length)
  | none => album

/-- Modelled from the spec's words, for comparison with search_query: the
rendered fields, qualifier-prefixed, with empty fields omitted. -/
def specQueryFields (track artist album : Str) : List Str :=
  (if track.isEmpty then [] else ["track:".toList ++ track]) ++
  (if artist.isEmpty then [] else ["artist:".toList ++ artist]) ++
  (if (trimAlbum album).isEmpty then [] else ["album:".toList ++ trimAlbum album])

/-- Modelled from the spec's words, for comparison with search_query: the
rendered fields joined by a single delimiter. -/
def specJoinedQuery (track artist album : Str) : Str :=
  List.intercalate [' '] (specQueryFields track artist album)

/-- The Song struct of main.rs (serde rename_all camelCase). -/
structure Song where
  album_title : Str
  artist_name : Str
  title : Str
  year : Nat
  loved : Bool
  ident : Str
deriving DecidableEq, Repr

/-- The AddStatus enum of main.rs: Added(song, id) or Skipped(song, reason). -/
inductive AddStatus where
  | Added : Song → Str → AddStatus
  | Skipped : Song → Str → AddStatus
deriving DecidableEq, Repr

/-- One iteration of the worker loop of run (main.rs) for one received song.
The remote search result and the remote add endpoint are supplied as values:
searchRes is what search_spotify_track returned for this song, addRes maps a
track id to the result of add_spotify_liked_track. Returns the single outcome
sent on the outcome channel, paired with whether the add (mutator) call was
made. -/
def workerStep (mutate : Bool) (searchRes : Except Str Str)
    (addRes : Str → Except Str Unit) (song : Song) : AddStatus × Bool :=
  match searchRes with
  | Except.error e => (AddStatus.Skipped song ("search track: ".toList ++ e), false)
  | Except.ok id =>
    if mutate then
      match addRes id with
      | Except.error e => (AddStatus.Skipped song ("add track: ".toList ++ e), true)
      | Except.ok _ => (AddStatus.Added song id, true)
    else (AddStatus.Added song id, false)

/-- The whole worker pool of run, serialized: every song of the batch is
delivered to exactly one worker, whose loop body is workerStep; the oracles
oS and oA give the remote search and add results per song. -/
def runPipeline (mutate : Bool) (oS : Song → Except Str Str)
    (oA : Song → Str → Except Str Unit) (songs : List Song) : List AddStatus :=
  songs.map (fun s => (workerStep mutate (oS s) (oA s) s).1)

/-- The song carried by an outcome. -/
def songOf : AddStatus → Song
  | AddStatus.Added s _ => s
  | AddStatus.Skipped s _ => s

/-- The song of a Skipped outcome, none for Added. -/
def skippedSong : AddStatus → Option Song
  | AddStatus.Added _ _ => none
  | AddStatus.Skipped s _ => some s

/-- Whether an outcome is Added. -/
def isAdded : AddStatus → Bool
  | AddStatus.Added _ _ => true
  | AddStatus.Skipped _ _ => false

/-- Number of Added outcomes in a list of outcomes. -/
def countAdded (l : List AddStatus) : Nat := l.countP isAdded

/-- The collector loop of run: drains the outcome channel, pushing the song of
every Skipped outcome onto failed_songs and leaving it untouched on Added. -/
def collectOutcomes (outcomes : List AddStatus) : List Song :=
  outcomes.foldl (fun acc o => match o with
    | AddStatus.Added _ _ => acc
    | AddStatus.Skipped s _ => acc ++ [s]) []

/-- Rust usize subtraction as on line 191 of main.rs
(total as usize - failed_songs.len()): defined only when it does not
underflow; on underflow the Rust expression panics in debug builds and wraps
in release builds. -/
def usizeSub (a b : Nat) : Option Nat := if b ≤ a then some (a - b) else none

/-- A concrete song used to instantiate claims. -/
def exSong : Song :=
  ⟨"Al".toList, "Ar".toList, "T".toList, 2020, true, "x".toList⟩

theorem rustStripSuffix_sound {s sfx t : Str} (h : rustStripSuffix s sfx = some t) :
    s = t ++ sfx := by
  unfold rustStripSuffix at h
  split at h
  case isTrue hsfx =>
    obtain ⟨pre, rfl⟩ := List.isSuffixOf_iff_suffix.mp hsfx
    have hlen : (pre ++ sfx).length - sfx.length = pre.length := by
      simp [List.length_append]
    rw [hlen, List.take_left' rfl] at h
    injection h with h
    rw [h]
  case isFalse => exact absurd h (by simp)

theorem foldStrip_decomp (sfxs : List Str) (album : Str) :
    ∃ l : List Str, l.reverse.Sublist sfxs ∧
      album = sfxs.foldl (fun a sfx => (rustStripSuffix a sfx).getD a) album ++ l.flatten := by
  induction sfxs generalizing album with
  | nil => exact ⟨[], by simp, by simp⟩
  | cons sfx rest ih =>
    simp only [List.foldl_cons]
    rcases hstrip : rustStripSuffix album sfx with _ | t
    · obtain ⟨l, hsub, heq⟩ := ih album
      refine ⟨l, hsub.cons sfx, ?_⟩
      simpa [hstrip] using heq
    · obtain ⟨l, hsub, heq⟩ := ih t
      refine ⟨l ++ [sfx], ?_, ?_⟩
      · simpa [List.reverse_append] using hsub.cons₂ sfx
      · have halb := rustStripSuffix_sound hstrip
        simp only [Option.getD_some]
        conv_lhs => rw [halb, heq]
        simp [List.flatten_append, List.append_assoc]

/-- Claim C2, counterexample: on an album carrying two stacked known suffixes
the trimming loop removes both, while the spec's first-match-only trim removes
just one; the two disagree. -/
theorem c2_counterexample :
    trimAlbum ("A (Deluxe Edition) - EP".toList) = "A".toList ∧
    specTrimFirstMatch ("A (Deluxe Edition) - EP".toList) = "A (Deluxe Edition)".toList ∧
    trimAlbum ("A (Deluxe Edition) - EP".toList)
      ≠ specTrimFirstMatch ("A (Deluxe Edition) - EP".toList) := by
  refine ⟨by decide, by decide, by decide⟩

/-- Claim C2 (amended): the trimming loop checks each known suffix once in
list order and strips it if the string currently ends with it, so the result
is the album with a chain of suffixes removed — possibly more than one — where
the removed suffixes, in stripping order, form a sublist of
ALBUM_TRIM_SUFFIXES (hence no list entry is stripped twice). -/
theorem c2_trim_removes_suffix_chain (album : Str) :
    ∃ l : List Str, l.reverse.Sublist ALBUM_TRIM_SUFFIXES ∧
      album = trimAlbum album ++ l.flatten :=
  foldStrip_decomp ALBUM_TRIM_SUFFIXES album

/-- Claim C5, counterexample: with all three fields non-empty the constructed
query carries a trailing delimiter after the last field, so it differs from
the spec's join of the rendered fields by a single delimiter. -/
theorem c5_counterexample :
    search_query "T".toList "A".toList "B".toList = "track:T artist:A album:B ".toList ∧
    specJoinedQuery "T".toList "A".toList "B".toList = "track:T artist:A album:B".toList ∧
    search_query "T".toList "A".toList "B".toList
      ≠ specJoinedQuery "T".toList "A".toList "B".toList := by
  refine ⟨by decide, by decide, by decide⟩

/-- Claim C5 (amended): the constructed query is exactly the concatenation of
the rendered non-empty qualifier-prefixed fields (album after suffix-trim),
each followed by a single delimiter — so no empty field is rendered, each
non-empty field appears with its qualifier exactly once, and consecutive
fields are separated by one delimiter, with one trailing delimiter after the
last field. -/
theorem c5_query_renders_fields (track artist album : Str) :
    search_query track artist album
      = ((specQueryFields track artist album).map (fun f => f ++ [' '])).flatten := by
  simp only [search_query, specQueryFields]
  by_cases h1 : track.isEmpty <;> by_cases h2 : artist.isEmpty <;>
    by_cases h3 : (trimAlbum album).isEmpty <;>
    simp [h1, h2, h3, List.append_assoc]

theorem collect_foldl_acc (acc : List Song) (os : List AddStatus) :
    os.foldl (fun acc o => match o with
      | AddStatus.Added _ _ => acc
      | AddStatus.Skipped s _ => acc ++ [s]) acc
    = acc ++ os.filterMap skippedSong := by
  induction os generalizing acc with
  | nil => simp
  | cons o rest ih =>
    cases o with
    | Added s id => simp [List.foldl_cons, skippedSong, ih]
    | Skipped s r => simp [List.foldl_cons, skippedSong, ih, List.append_assoc]

theorem collectOutcomes_eq (os : List AddStatus) :
    collectOutcomes os = os.filterMap skippedSong := by
  simpa [collectOutcomes] using collect_foldl_acc [] os

theorem countAdded_add_skippedCount (os : List AddStatus) :
    countAdded os + (os.filterMap skippedSong).length = os.length := by
  induction os with
  | nil => rfl
  | cons o rest ih =>
    cases o with
    | Added s id =>
      have h1 : countAdded (AddStatus.Added s id :: rest) = countAdded rest + 1 := by
        simp [countAdded, List.countP_cons, isAdded]
      have h2 : List.filterMap skippedSong (AddStatus.Added s id :: rest)
          = List.filterMap skippedSong rest := by
        simp [List.filterMap_cons, skippedSong]
      rw [h1, h2, List.length_cons]
      omega
    | Skipped s r =>
      have h1 : countAdded (AddStatus.Skipped s r :: rest) = countAdded rest := by
        simp [countAdded, List.countP_cons, isAdded]
      have h2 : List.filterMap skippedSong (AddStatus.Skipped s r :: rest)
          = s :: List.filterMap skippedSong rest := by
        simp [List.filterMap_cons, skippedSong]
      rw [h1, h2, List.length_cons, List.length_cons]
      omega

theorem songOf_workerStep (mutate : Bool) (sr : Except Str Str)
    (ar : Str → Except Str Unit) (s : Song) :
    songOf (workerStep mutate sr ar s).1 = s := by
  cases sr with
  | error e => rfl
  | ok id =>
    cases mutate with
    | false => rfl
    | true =>
      cases h : ar id with
      | error e => simp [workerStep, h, songOf]
      | ok u => simp [workerStep, h, songOf]

/-- Claim C9: every record delivered to a worker yields exactly one outcome,
carrying that very record; the collector consumes each outcome once, appending
the record of every Skipped outcome to the skipped list and leaving the list
unchanged on every Added outcome. -/
theorem c9_exactly_once (mutate : Bool) (oS : Song → Except Str Str)
    (oA : Song → Str → Except Str Unit) (songs : List Song) :
    (runPipeline mutate oS oA songs).map songOf = songs ∧
    (∀ outcomes : List AddStatus, collectOutcomes outcomes = outcomes.filterMap skippedSong) ∧
    (∀ s id rest, collectOutcomes (AddStatus.Added s id :: rest) = collectOutcomes rest) ∧
    (∀ s r rest, collectOutcomes (AddStatus.Skipped s r :: rest) = s :: collectOutcomes rest) := by
  refine ⟨?_, fun os => collectOutcomes_eq os, ?_, ?_⟩
  · induction songs with
    | nil => rfl
    | cons s rest ih =>
      simp only [runPipeline, List.map_cons, List.map_map] at *
      simp [songOf_workerStep, ih]
  · intro s id rest
    simp [collectOutcomes_eq, skippedSong]
  · intro s r rest
    simp [collectOutcomes_eq, skippedSong]

/-- Claim C1, counterexample: a completed run whose Batch declares total = 5
but carries one record, whose search fails: the code reports
added = 5 - 1 = 4, while zero Added outcomes were received, so the reported
added count differs from the number of Added outcomes and is derived from the
advisory total. -/
theorem c1_counterexample :
    usizeSub 5 (collectOutcomes (runPipeline false (fun _ => Except.error "x".toList)
        (fun _ _ => Except.ok ()) [exSong])).length = some 4 ∧
    countAdded (runPipeline false (fun _ => Except.error "x".toList)
        (fun _ _ => Except.ok ()) [exSong]) = 0 ∧
    usizeSub 5 (collectOutcomes (runPipeline false (fun _ => Except.error "x".toList)
        (fun _ _ => Except.ok ()) [exSong])).length
      ≠ some (countAdded (runPipeline false (fun _ => Except.error "x".toList)
        (fun _ _ => Except.ok ()) [exSong])) := by
  refine ⟨by decide, by decide, by decide⟩

/-- Claim C1 (amended): the reported added count is the advisory total minus
the number of Skipped outcomes (an unsigned subtraction); when the declared
total equals the number of input records it coincides with the number of
Added outcomes received, and added + skipped equals the number of outcomes,
which equals the number of input records. -/
theorem c1_added_count (mutate : Bool) (oS : Song → Except Str Str)
    (oA : Song → Str → Except Str Unit) (songs : List Song) (total : Nat)
    (h : total = songs.length) :
    usizeSub total (collectOutcomes (runPipeline mutate oS oA songs)).length
      = some (countAdded (runPipeline mutate oS oA songs)) ∧
    countAdded (runPipeline mutate oS oA songs)
      + (collectOutcomes (runPipeline mutate oS oA songs)).length
      = (runPipeline mutate oS oA songs).length ∧
    (runPipeline mutate oS oA songs).length = songs.length := by
  have hlen : (runPipeline mutate oS oA songs).length = songs.length := by
    simp [runPipeline]
  have hsum := countAdded_add_skippedCount (runPipeline mutate oS oA songs)
  rw [collectOutcomes_eq]
  refine ⟨?_, hsum, hlen⟩
  unfold usizeSub
  rw [if_pos (by omega)]
  congr 1
  omega

/-- Witness for c1_added_count at a concrete run. -/
theorem c1_added_count_witness :
    usizeSub 1 (collectOutcomes (runPipeline false (fun _ => Except.error "x".toList)
        (fun _ _ => Except.ok ()) [exSong])).length
      = some (countAdded (runPipeline false (fun _ => Except.error "x".toList)
        (fun _ _ => Except.ok ()) [exSong])) :=
  (c1_added_count false (fun _ => Except.error "x".toList) (fun _ _ => Except.ok ())
    [exSong] 1 (by decide)).1

/-- Claim C10: the added-count subtraction (total as usize minus the
skipped-list length, line 191 of main.rs) underflows exactly when the number
of skipped records exceeds the declared total, and is well-defined exactly
when the number of skipped records is at most total. -/
theorem c10_underflow (total : Nat) (outcomes : List AddStatus) :
    (usizeSub total (collectOutcomes outcomes).length = none
      ↔ total < (collectOutcomes outcomes).length) ∧
    ((∃ n, usizeSub total (collectOutcomes outcomes).length = some n)
      ↔ (collectOutcomes outcomes).length ≤ total) := by
  by_cases hle : (collectOutcomes outcomes).length ≤ total
  · simp [usizeSub, hle]
  · simp [usizeSub, hle]
    omega

/-- Claim C4: when the Matcher succeeded and the pipeline runs in mutating
mode but the Mutator fails, the worker emits exactly one Skipped outcome whose
reason carries the stage name "add track", invokes the mutator, and never
emits an Added outcome for that record. -/
theorem c4_mutate_failure_skipped (song : Song) (id e : Str)
    (oA : Str → Except Str Unit) (h : oA id = Except.error e) :
    workerStep true (Except.ok id) oA song
      = (AddStatus.Skipped song ("add track: ".toList ++ e), true) ∧
    (∀ s i, (workerStep true (Except.ok id) oA song).1 ≠ AddStatus.Added s i) ∧
    (∃ post, "add track: ".toList ++ e = "add track".toList ++ post) := by
  have hpre : ("add track: ".toList : Str) = "add track".toList ++ ": ".toList := by decide
  refine ⟨by simp [workerStep, h], ?_, ⟨": ".toList ++ e, by rw [hpre, List.append_assoc]⟩⟩
  intro s i
  simp [workerStep, h]

/-- Witness for c4_mutate_failure_skipped at a concrete record and failure. -/
theorem c4_witness :
    workerStep true (Except.ok "id1".toList) (fun _ => Except.error "403".toList) exSong
      = (AddStatus.Skipped exSong ("add track: 403".toList), true) := by
  have h := (c4_mutate_failure_skipped exSong "id1".toList "403".toList
      (fun _ => Except.error "403".toList) rfl).1
  rw [h]
  decide

/-- Claim C7: the mutator is invoked exactly when the matcher succeeded and
the pipeline runs in mutating mode; on matcher failure the worker emits a
Skipped outcome whose reason carries the stage name "search track", with no
mutator invocation; in non-mutating mode a successful match emits Added with
no mutator invocation. -/
theorem c7_mutator_gating (mutate : Bool) (searchRes : Except Str Str)
    (oA : Str → Except Str Unit) (song : Song) :
    ((workerStep mutate searchRes oA song).2 = true
      ↔ (mutate = true ∧ ∃ id, searchRes = Except.ok id)) ∧
    (∀ e, searchRes = Except.error e →
      workerStep mutate searchRes oA song
        = (AddStatus.Skipped song ("search track: ".toList ++ e), false)) ∧
    (∀ id, searchRes = Except.ok id → mutate = false →
      workerStep mutate searchRes oA song = (AddStatus.Added song id, false)) := by
  cases searchRes with
  | error e => cases mutate <;> simp [workerStep]
  | ok id =>
    cases mutate with
    | false => simp [workerStep]
    | true =>
      cases h : oA id with
      | error e2 => simp [workerStep, h]
      | ok u => simp [workerStep, h]

/-- Witness for c7_mutator_gating at a concrete record whose search fails. -/
theorem c7_witness :
    workerStep false (Except.error "e1".toList) (fun _ => Except.ok ()) exSong
      = (AddStatus.Skipped exSong ("search track: e1".toList), false) := by
  have h := (c7_mutator_gating false (Except.error "e1".toList)
      (fun _ => Except.ok ()) exSong).2.1 "e1".toList rfl
  rw [h]
  decide

/-- Result of the add (library-mutation) request as classified by
add_spotify_liked_track in main.rs. -/
inductive MutateResult where
  | ok
  | badStatus (code : Nat)
deriving DecidableEq, Repr

/-- The status handling of add_spotify_liked_track in main.rs: the response
status is compared against 200, anything else is a bad-status failure. -/
def add_spotify_liked_track (status : Nat) : MutateResult :=
  if status ≠ 200 then MutateResult.badStatus status else MutateResult.ok

/-- Modelled from the spec's words, for comparison with the code's status
check: any 2xx status counts as success. -/
def is2xx (status : Nat) : Bool := decide (200 ≤ status) && decide (status < 300)

/-- Claim C3, counterexample: status 204 is a 2xx status, yet the code treats
it as a bad-status failure, not success. -/
theorem c3_counterexample :
    is2xx 204 = true ∧
    add_spotify_liked_track 204 = MutateResult.badStatus 204 ∧
    add_spotify_liked_track 204 ≠ MutateResult.ok := by
  refine ⟨by decide, by decide, by decide⟩

/-- Claim C3 (amended): for every response to the add request, the code
returns success exactly when the response status is 200, and fails with a
bad-status error carrying the status code otherwise. -/
theorem c3_add_status (status : Nat) :
    (add_spotify_liked_track status = MutateResult.ok ↔ status = 200) ∧
    (status ≠ 200 → add_spotify_liked_track status = MutateResult.badStatus status) := by
  by_cases h : status = 200
  · simp [add_spotify_liked_track, h]
  · simp [add_spotify_liked_track, h]

/-- Witness for c3_add_status at status 404. -/
theorem c3_add_status_witness :
    add_spotify_liked_track 404 = MutateResult.badStatus 404 :=
  (c3_add_status 404).2 (by decide)

/-- A search response as seen by search_spotify_track: its status code and
its body, parsed to the list of track-item ids of tracks.items; none models
a body on which the json deserialization fails. -/
structure SearchRsp where
  status : Nat
  items : Option (List Str)
deriving DecidableEq, Repr

/-- Result of the search request as classified by search_spotify_track. -/
inductive SearchResult where
  | ok (id : Str)
  | badStatus (code : Nat)
  | deserializeError
  | noResults
deriving DecidableEq, Repr

/-- search_spotify_track of main.rs: a non-200 status is a bad-status
failure; otherwise the body is deserialized; an empty tracks.items is a
no-results failure; otherwise the id of items[0] is returned. -/
def search_spotify_track (rsp : SearchRsp) : SearchResult :=
  if rsp.status ≠ 200 then SearchResult.badStatus rsp.status
  else match rsp.items with
    | none => SearchResult.deserializeError
    | some [] => SearchResult.noResults
    | some (id :: _) => SearchResult.ok id

/-- Claim C6: the Matcher fails with a bad-status error (carrying the status
code) exactly when the response status is not the success status 200; it
fails with the no-results error exactly when the status is 200 and the
deserialized result set is empty; and on a 200 status with a non-empty result
set it returns the catalog id of the first (rank 0) candidate. -/
theorem c6_search_classification (rsp : SearchRsp) :
    ((∃ c, search_spotify_track rsp = SearchResult.badStatus c) ↔ rsp.status ≠ 200) ∧
    (∀ c, search_spotify_track rsp = SearchResult.badStatus c → c = rsp.status) ∧
    (search_spotify_track rsp = SearchResult.noResults
      ↔ (rsp.status = 200 ∧ rsp.items = some [])) ∧
    (∀ id rest, rsp.status = 200 → rsp.items = some (id :: rest) →
      search_spotify_track rsp = SearchResult.ok id) := by
  obtain ⟨st, items⟩ := rsp
  by_cases h : st = 200
  · subst h
    rcases items with _ | ⟨_ | ⟨id, rest⟩⟩ <;> simp [search_spotify_track]
  · rcases items with _ | ⟨_ | ⟨id, rest⟩⟩ <;> simp [search_spotify_track, h]

/-- Witness for c6_search_classification: a 200 response with one item
resolves to that item's id. -/
theorem c6_witness :
    search_spotify_track ⟨200, some ["a1".toList]⟩ = SearchResult.ok "a1".toList :=
  (c6_search_classification ⟨200, some ["a1".toList]⟩).2.2.2 "a1".toList [] rfl rfl

/-- JSON values, used to model the serde serialization of the failure
report. -/
inductive Json where
  | str (s : Str)
  | num (n : Nat)
  | bool (b : Bool)
  | arr (elems : List Json)
  | obj (fields : List (Str × Json))

/-- The serde Serialize of Song (rename_all camelCase). -/
def songToJson (s : Song) : Json :=
  Json.obj [("albumTitle".toList, Json.str s.album_title),
            ("artistName".toList, Json.str s.artist_name),
            ("title".toList, Json.str s.title),
            ("year".toList, Json.num s.year),
            ("loved".toList, Json.bool s.loved),
            ("ident".toList, Json.str s.ident)]

/-- String payload of a JSON value, if any. -/
def jStr : Json → Option Str
  | Json.str s => some s
  | _ => none

/-- Numeric payload of a JSON value, if any. -/
def jNum : Json → Option Nat
  | Json.num n => some n
  | _ => none

/-- Boolean payload of a JSON value, if any. -/
def jBool : Json → Option Bool
  | Json.bool b => some b
  | _ => none

/-- The serde Deserialize of Song (rename_all camelCase), reading the same
camelCase field names the input batch uses. -/
def parseSong (j : Json) : Option Song :=
  match j with
  | Json.obj fields => do
    let at_ ← fields.lookup "albumTitle".toList >>= jStr
    let an ← fields.lookup "artistName".toList >>= jStr
    let t ← fields.lookup "title".toList >>= jStr
    let y ← fields.lookup "year".toList >>= jNum
    let lv ← fields.lookup "loved".toList >>= jBool
    let idn ← fields.lookup "ident".toList >>= jStr
    some ⟨at_, an, t, y, lv, idn⟩
  | _ => none

/-- Fatal errors of the report-writing stage, with the context strings the
code attaches. -/
inductive ReportError where
  | createOutputFile
  | writeFailedSongs
deriving DecidableEq, Repr

/-- The written failure artifact: its file name and its JSON content. -/
structure FileOut where
  name : Str
  content : Json

/-- The report-writing tail of run (main.rs, lines 193 to 207): when
failed_songs is non-empty, a file named failures_<timestamp>.json is created
(creation failure is the fatal error "create output file") and the failed
songs are serialized into it as a JSON array (write failure is the fatal
error "write failed songs"); when failed_songs is empty only the summary is
logged and no file is produced. File creation and write success are supplied
as the booleans createOk and writeOk. -/
def writeReport (failed : List Song) (ts : Int) (createOk writeOk : Bool) :
    Except ReportError (Option FileOut) :=
  if failed.isEmpty then Except.ok none
  else if !createOk then Except.error ReportError.createOutputFile
  else if !writeOk then Except.error ReportError.writeFailedSongs
  else Except.ok (some ⟨"failures_".toList ++ (toString ts).toList ++ ".json".toList,
    Json.arr (failed.map songToJson)⟩)

theorem parseSong_songToJson (s : Song) : parseSong (songToJson s) = some s := by
  rfl

/-- Claim C8: the failure report file is produced exactly when the skipped
list is non-empty (and the file operations succeed); when produced it is
named failures_<timestamp>.json and contains exactly the skipped records as a
JSON array, in the same shape the input parser reads back; create or write
failure is propagated as a fatal error; and when no record was skipped no
file is produced regardless of the file system. -/
theorem c8_failure_report (failed : List Song) (ts : Int) (createOk writeOk : Bool) :
    (failed = [] → writeReport failed ts createOk writeOk = Except.ok none) ∧
    (failed ≠ [] → createOk = true → writeOk = true →
      writeReport failed ts createOk writeOk
        = Except.ok (some ⟨"failures_".toList ++ (toString ts).toList ++ ".json".toList,
            Json.arr (failed.map songToJson)⟩)) ∧
    (failed ≠ [] → createOk = false →
      writeReport failed ts createOk writeOk = Except.error ReportError.createOutputFile) ∧
    (failed ≠ [] → createOk = true → writeOk = false →
      writeReport failed ts createOk writeOk = Except.error ReportError.writeFailedSongs) ∧
    (∀ s, s ∈ failed → parseSong (songToJson s) = some s) ∧
    (∀ out, writeReport failed ts createOk writeOk = Except.ok (some out) → failed ≠ []) := by
  refine ⟨?_, ?_, ?_, ?_, fun s _ => parseSong_songToJson s, ?_⟩
  · intro h
    simp [writeReport, h]
  · intro h hc hw
    simp [writeReport, List.isEmpty_iff, h, hc, hw]
  · intro h hc
    simp [writeReport, List.isEmpty_iff, h, hc]
  · intro h hc hw
    simp [writeReport, List.isEmpty_iff, h, hc, hw]
  · intro out hout
    intro hnil
    simp [writeReport, hnil] at hout

/-- Witness for c8_failure_report at a concrete one-record failure list. -/
theorem c8_witness :
    writeReport [exSong] 7 true true
      = Except.ok (some ⟨"failures_7.json".toList, Json.arr [songToJson exSong]⟩) := by
  have h := (c8_failure_report [exSong] 7 true true).2.1 (by decide) rfl rfl
  rw [h]
  rfl

end Spotifyimport
